import Mathlib

/-!
# y-sweet worker gateway: verification of `crates/y-sweet-worker/src/lib.rs`

A shallow embedding of the request-gateway logic of the y-sweet Cloudflare
worker: the admin Auth Guard (`check_server_token`), the New-Document workflow
(`new_doc`), the store health check (`check_store`), the document-token
issuance endpoint (`auth_doc`), and the live-connection forwarder
(`forward_to_durable_object`).

External collaborators (the `Authenticator` from y-sweet-core, the `Store`,
the durable-object directory, the JSON body parser, the nanoid generator and
the document-name validator) are modelled as oracles: structures of pure
functions, or extra function parameters, universally quantified in the
theorems.  Stateful I/O results (store probes, document initialization) are
carried as `Except` values inside those oracles: each call site in the Rust
code reads the oracle at the key it passes, exactly as the code passes it.
Rust panics (`.unwrap()` on a fallible collaborator call) are modelled by an
`Option` layer on the handler's result: `none` is a panic, i.e. no response
value of the handler's type is produced at all.
-/

namespace YSweet

/-- The gateway error enum, with the constructors exactly as they are used in
`lib.rs` (`error::Error`). -/
inductive Error where
  | ExpectedAuthHeader
  | BadAuthHeader
  | BadRequest
  | InvalidDocName
  | NoSuchDocument
  | UpstreamConnectionError
  | MissingHostHeader
  | ConfigurationError (field : String) (value : String)
  | InternalError
  | ExpectedClientAuthHeader
  | BadClientAuthHeader
deriving DecidableEq, Repr

/-- Modelled from the spec: the Document Store's classified error kinds
`{connection, missing-container, not-authorized, other}` (§6); the store
itself lives in y-sweet-core / r2_store outside the slice.  `Other` stands
for every further variant, which `check_store`'s `_` arm catches.  Each
variant carries its internal detail string. -/
inductive StoreError where
  | ConnectionError (detail : String)
  | BucketDoesNotExist (detail : String)
  | NotAuthorized (detail : String)
  | Other (detail : String)
deriving DecidableEq, Repr

/-- The Token Authority (`auth::Authenticator` of y-sweet-core), an external
collaborator: oracle functions for the three operations the gateway calls.
`verify_server_token token now = true` models `Ok(())`, `false` models `Err`. -/
structure Authenticator where
  verify_server_token : String → Nat → Bool
  gen_doc_token : String → Nat → String
  verify_doc_token : String → String → Nat → Bool

/-- Body of `POST /doc/new` (`api_types::DocCreationRequest`). -/
structure DocCreationRequest where
  doc : Option String
deriving DecidableEq, Repr

/-- Response of `POST /doc/new` (`api_types::NewDocResponse`). -/
structure NewDocResponse where
  doc : String
deriving DecidableEq, Repr

/-- Response of `POST /doc/:doc_id/auth` (`api_types::ClientToken`):
connection URL, document id, optional document token. -/
structure ClientToken where
  url : String
  doc : String
  token : Option String
deriving DecidableEq, Repr

/-- An inbound request, reduced to what the gateway reads from it:
`headers name` is the result of `req.headers().get(name)` (the `Err` case of
the worker API arises only for syntactically invalid header names, never for
the constant names the gateway uses, so the getter is modelled total);
`query name` is lookup in the `HashMap` collected from `req.url()?.query_pairs()`;
`body` is the result of `req.json::<DocCreationRequest>()`, where `none`
models a body that fails to deserialize. -/
structure Request where
  headers : String → Option String
  query : String → Option String
  body : Option DocCreationRequest

/-- The Document Store handle as the gateway sees it for one request:
`init` is the outcome of `store.init()`, `exists_` (source name `exists`)
is the outcome of `store.exists(key)` at each key. -/
structure Store where
  init : Except StoreError Unit
  exists_ : String → Except StoreError Bool

/-- Worker configuration (`config::Configuration`): the gateway core reads
only `url_prefix` (field renamed `urlPrefix` here). -/
structure Config where
  urlPrefix : Option String

/-- `ServerContext` (`server_context.rs`, outside the slice): configuration
plus collaborator handles.  `auth` is the result of `ctx.data.auth()`, which
returns `Ok(None)` when authentication is disabled, `Ok(Some _)` when enabled,
and `Err _` when the configured key fails to load; the method is
deterministic per request, so its two call sites in `auth_doc` read the same
value. -/
structure ServerContext where
  config : Config
  auth : Except Error (Option Authenticator)
  store : Store

/-- `auth_header_val.strip_prefix("Bearer ")` from `check_server_token`:
`some rest` exactly when the value starts with the seven characters
`B e a r e r ␣`, returning what follows. -/
def stripBearer (v : String) : Option String :=
  match v.data with
  | 'B' :: 'e' :: 'a' :: 'r' :: 'e' :: 'r' :: ' ' :: rest => some (String.mk rest)
  | _ => none

/-- `check_server_token` (lib.rs lines 59–82): the Auth Guard for the
administrative endpoints. -/
def check_server_token (req : Request) (auth : Option Authenticator) (now : Nat) :
    Except Error Unit :=
  match auth with
  | none => .ok ()
  | some a =>
    match req.headers "Authorization" with
    | none => .error .ExpectedAuthHeader
    | some v =>
      match stripBearer v with
      | some token =>
        if a.verify_server_token token now then .ok () else .error .BadAuthHeader
      | none => .error .BadAuthHeader

/-- `new_doc` (lib.rs lines 88–113).  External oracles: `validate_doc_name`
(y-sweet-core), `genId` the value `nanoid::nanoid!()` would produce,
`docNew` the outcome of `DocWithSyncKv::new(&doc_id, store, || {})` and
`persist` the outcome of `dwskv.sync_kv().persist()` at each id.  The two
`.unwrap()` calls on `docNew`/`persist` panic on `Err`, modelled as `none`. -/
def new_doc (req : Request) (ctx : ServerContext)
    (validate_doc_name : String → Bool) (genId : String)
    (docNew : String → Except StoreError Unit)
    (persist : String → Except StoreError Unit)
    (now : Nat) : Option (Except Error NewDocResponse) :=
  match ctx.auth with
  | .error e => some (.error e)
  | .ok auth =>
    match check_server_token req auth now with
    | .error e => some (.error e)
    | .ok _ =>
      match req.body with
      | none => some (.error .BadRequest)
      | some body =>
        let doc_id := body.doc.getD genId
        if !validate_doc_name doc_id then some (.error .InvalidDocName)
        else
          match docNew doc_id with
          | .error _ => none
          | .ok _ =>
            match persist doc_id with
            | .error _ => none
            | .ok _ => some (.ok ⟨doc_id⟩)

/-- The JSON value returned by `check_store`: `{"ok": bool}` with an optional
`"error"` message field. -/
structure CheckStoreValue where
  ok : Bool
  error : Option String
deriving DecidableEq, Repr

/-- `check_store` (lib.rs lines 119–139). -/
def check_store (req : Request) (ctx : ServerContext) (now : Nat) :
    Except Error CheckStoreValue :=
  match ctx.auth with
  | .error e => .error e
  | .ok auth =>
    match check_server_token req auth now with
    | .error e => .error e
    | .ok _ =>
      .ok (match ctx.store.init with
        | .ok _ => ⟨true, none⟩
        | .error (.ConnectionError _) => ⟨false, some "Connection error."⟩
        | .error (.BucketDoesNotExist _) => ⟨false, some "Bucket does not exist."⟩
        | .error (.NotAuthorized _) => ⟨false, some "Not authorized."⟩
        | .error (.Other _) => ⟨false, some "Unknown error."⟩)

/-- Modelled from the spec: the external `url` crate as `auth_doc` uses it.
A parsed URL is its scheme plus everything after `"://"`; `parse` accepts a
nonempty alphabetic scheme followed by `"://"` (splitting at the first
occurrence); Display re-joins the two parts.  `set_scheme` is a record
update: for the rewrites the code performs (`http→ws`, `https→wss`, both
between special schemes) the crate's `set_scheme` always succeeds, so the
`Error::InternalError` arm of `auth_doc` is unreachable and has no model. -/
structure Url where
  scheme : String
  rest : String
deriving DecidableEq, Repr

/-- Splits a character list at the first `"://"`, returning the part before
(reversed accumulator) and the part after. -/
def splitSchemeAux (acc : List Char) : List Char → Option (String × String)
  | ':' :: '/' :: '/' :: rest => some (String.mk acc.reverse, String.mk rest)
  | c :: rest => splitSchemeAux (c :: acc) rest
  | [] => none

/-- `Url::parse` of the `url` crate, reduced to what `auth_doc` relies on. -/
def Url.parse (s : String) : Option Url :=
  match splitSchemeAux [] s.data with
  | some (scheme, rest) =>
    if scheme ≠ "" ∧ scheme.data.all Char.isAlpha then some ⟨scheme, rest⟩ else none
  | none => none

/-- Display of a parsed URL (`format!("{parsed}")`). -/
def Url.toString (u : Url) : String :=
  u.scheme ++ "://" ++ u.rest

/-- `auth_doc` (lib.rs lines 145–209).  `doc_id` is the `:doc_id` route
parameter, always present on this route (`ctx.param("doc_id").unwrap()`). -/
def auth_doc (req : Request) (ctx : ServerContext) (doc_id : String) (now : Nat) :
    Except Error ClientToken :=
  match ctx.auth with
  | .error e => .error e
  | .ok auth =>
    match check_server_token req auth now with
    | .error e => .error e
    | .ok _ =>
      match ctx.store.exists_ (doc_id ++ "/data.ysweet") with
      | .error _ => .error .UpstreamConnectionError
      | .ok false => .error .NoSuchDocument
      | .ok true =>
        let token := auth.map fun a => a.gen_doc_token doc_id now
        match ctx.config.urlPrefix with
        | some p =>
          match Url.parse p with
          | none => .error (.ConfigurationError "url_prefix" p)
          | some parsed =>
            match parsed.scheme with
            | "http" =>
              .ok ⟨Url.toString { parsed with scheme := "ws" } ++ "/doc/ws", doc_id, token⟩
            | "https" =>
              .ok ⟨Url.toString { parsed with scheme := "wss" } ++ "/doc/ws", doc_id, token⟩
            | _ => .error (.ConfigurationError "url_prefix" p)
        | none =>
          match req.headers "Host" with
          | none => .error .MissingHostHeader
          | some host =>
            let use_https := ((req.headers "X-Forwarded-Proto").map fun d => d == "https").getD false
            let scheme := if use_https then "wss" else "ws"
            .ok ⟨scheme ++ "://" ++ host ++ "/doc/ws", doc_id, token⟩

/-- The Actor Directory (Cloudflare durable-object API), an external
collaborator: `durable_object binding` models `ctx.env.durable_object(binding)`,
`id_from_name` the deterministic name-to-id mapping, `get_stub` stub
resolution for an id.  Failures (`Err` of the worker API) carry no detail the
gateway reads. -/
structure Env where
  durable_object : String → Except Unit Unit
  id_from_name : String → Except Unit String
  get_stub : String → Except Unit Unit

/-- Outcome of `forward_to_durable_object`: an `Error` rendered as a response
(`e.into()`), a worker-API error propagated with `?`, or a hand-off of the
request to the stub of the named instance (`stub.fetch_with_request`; the
proxied response itself is external I/O and not modelled). -/
inductive ForwardOutcome where
  | response (e : Error)
  | workerError
  | forwarded (instanceId : String)
deriving DecidableEq, Repr

/-- Lines 238–248 of `forward_to_durable_object`: resolve the durable-object
namespace `"Y_SWEET"`, map `doc_id` to an instance id, get its stub and hand
the request off.  (The request clone / path restore / `install_on_request`
plumbing between stub resolution and `fetch_with_request` only transfers the
request and context and is not modelled.) -/
def resolve_and_forward (env : Env) (doc_id : String) : ForwardOutcome :=
  match env.durable_object "Y_SWEET" with
  | .error _ => .workerError
  | .ok _ =>
    match env.id_from_name doc_id with
    | .error _ => .workerError
    | .ok objId =>
      match env.get_stub objId with
      | .error _ => .workerError
      | .ok _ => .forwarded objId

/-- `forward_to_durable_object` (lib.rs lines 211–249).  `doc_id` is the
`:doc_id` route parameter.  `ctx.data.auth().unwrap()` panics when `auth()`
errors, modelled as `none`. -/
def forward_to_durable_object (env : Env) (req : Request) (ctx : ServerContext)
    (doc_id : String) (now : Nat) : Option ForwardOutcome :=
  match ctx.auth with
  | .error _ => none
  | .ok none => some (resolve_and_forward env doc_id)
  | .ok (some auth) =>
    match req.query "token" with
    | none => some (.response .ExpectedClientAuthHeader)
    | some token =>
      if auth.verify_doc_token token doc_id now then
        some (resolve_and_forward env doc_id)
      else
        some (.response .BadClientAuthHeader)

/-- Claim C1: with no Token Authority configured the Auth Guard admits
unconditionally; otherwise a missing `Authorization` header is rejected with
`ExpectedAuthHeader`, a header without the exact `"Bearer "` prefix or with a
token failing verification at the current timestamp is rejected with
`BadAuthHeader`, no other header shape is accepted, and each of the three
administrative workflows (`new_doc`, `check_store`, `auth_doc`) runs this
guard first and propagates its rejection unchanged. -/
theorem C1_auth_guard (req : Request) (a : Authenticator) (now : Nat) :
    check_server_token req none now = .ok ()
    ∧ (req.headers "Authorization" = none →
        check_server_token req (some a) now = .error .ExpectedAuthHeader)
    ∧ (∀ v, req.headers "Authorization" = some v → stripBearer v = none →
        check_server_token req (some a) now = .error .BadAuthHeader)
    ∧ (∀ v t, req.headers "Authorization" = some v → stripBearer v = some t →
        a.verify_server_token t now = false →
        check_server_token req (some a) now = .error .BadAuthHeader)
    ∧ (check_server_token req (some a) now = .ok () ↔
        ∃ v t, req.headers "Authorization" = some v ∧ stripBearer v = some t ∧
          a.verify_server_token t now = true)
    ∧ (∀ (ctx : ServerContext) (e : Error) (V : String → Bool) (g d : String)
        (dn ps : String → Except StoreError Unit),
        ctx.auth = .ok (some a) →
        check_server_token req (some a) now = .error e →
        new_doc req ctx V g dn ps now = some (.error e)
        ∧ check_store req ctx now = .error e
        ∧ auth_doc req ctx d now = .error e) := by
  refine ⟨rfl, ?_, ?_, ?_, ?_, ?_⟩
  · intro h; simp [check_server_token, h]
  · intro v hv hs; simp [check_server_token, hv, hs]
  · intro v t hv hs hverify; simp [check_server_token, hv, hs, hverify]
  · constructor
    · intro h
      unfold check_server_token at h
      cases hv : req.headers "Authorization" with
      | none => simp [hv] at h
      | some v =>
        cases hs : stripBearer v with
        | none => simp [hv, hs] at h
        | some t =>
          simp only [hv, hs] at h
          by_cases hver : a.verify_server_token t now
          · exact ⟨v, t, rfl, hs, hver⟩
          · simp [hver] at h
    · rintro ⟨v, t, hv, hs, hver⟩
      simp [check_server_token, hv, hs, hver]
  · intro ctx e V g d dn ps hauth hrej
    refine ⟨?_, ?_, ?_⟩
    · simp [new_doc, hauth, hrej]
    · simp [check_store, hauth, hrej]
    · simp [auth_doc, hauth, hrej]

/-! ## Concrete fixtures used by witnesses and counterexamples -/

/-- A concrete Token Authority for witnesses: the server token is `"tok"`,
the document token for `d` is `"dt-" ++ d`. -/
def wAuth : Authenticator :=
  ⟨fun t _ => t == "tok", fun d _ => "dt-" ++ d, fun t d _ => t == "dt-" ++ d⟩

/-- A concrete store whose probes all succeed and that holds every key. -/
def wStoreOk : Store := ⟨.ok (), fun _ => .ok true⟩

/-- A request with no headers, no query parameters and an unparseable body. -/
def reqEmpty : Request := ⟨fun _ => none, fun _ => none, none⟩

/-- A request whose body parses as `{}` (no requested id), with no headers. -/
def reqEmptyBody : Request := ⟨fun _ => none, fun _ => none, some ⟨none⟩⟩

/-- A context with authentication enabled (authority `wAuth`), no URL prefix. -/
def ctxAuth : ServerContext := ⟨⟨none⟩, .ok (some wAuth), wStoreOk⟩

/-- A context with authentication disabled, no URL prefix. -/
def ctxNoAuth : ServerContext := ⟨⟨none⟩, .ok none, wStoreOk⟩

/-- A concrete Actor Directory for witnesses: instance id of `d` is `"id-" ++ d`. -/
def wEnv : Env := ⟨fun _ => .ok (), fun d => .ok ("id-" ++ d), fun _ => .ok ()⟩

/-- Witness for C1 at a concrete input: with an authority configured and no
`Authorization` header, the guard rejects with `ExpectedAuthHeader`. -/
theorem C1_auth_guard_witness :
    check_server_token reqEmpty (some wAuth) 0 = .error .ExpectedAuthHeader :=
  (C1_auth_guard reqEmpty wAuth 0).2.1 rfl

/-- Claim C2: on `/doc/ws/:doc_id`, with authentication enabled a missing
`token` query parameter yields `ExpectedClientAuthHeader` and a token failing
document verification against `doc_id` and the current time yields
`BadClientAuthHeader`; with authentication disabled the request goes straight
to forwarding; and the outcome never depends on the request's headers (in
particular, the administrative `Authorization` check is never performed). -/
theorem C2_forward_auth (env : Env) (req : Request) (ctx : ServerContext)
    (doc_id : String) (now : Nat) (a : Authenticator) :
    (ctx.auth = .ok (some a) → req.query "token" = none →
      forward_to_durable_object env req ctx doc_id now =
        some (.response .ExpectedClientAuthHeader))
    ∧ (∀ t, ctx.auth = .ok (some a) → req.query "token" = some t →
        a.verify_doc_token t doc_id now = false →
        forward_to_durable_object env req ctx doc_id now =
          some (.response .BadClientAuthHeader))
    ∧ (ctx.auth = .ok none →
        forward_to_durable_object env req ctx doc_id now =
          some (resolve_and_forward env doc_id))
    ∧ (∀ req2 : Request, req2.query = req.query →
        forward_to_durable_object env req2 ctx doc_id now =
          forward_to_durable_object env req ctx doc_id now) := by
  refine ⟨?_, ?_, ?_, ?_⟩
  · intro hauth hq; simp [forward_to_durable_object, hauth, hq]
  · intro t hauth hq hver; simp [forward_to_durable_object, hauth, hq, hver]
  · intro hauth; simp [forward_to_durable_object, hauth]
  · intro req2 hq; simp only [forward_to_durable_object, hq]

/-- Witness for C2 at a concrete input: authentication enabled, no `token`
query parameter, rejected with `ExpectedClientAuthHeader`. -/
theorem C2_forward_auth_witness :
    forward_to_durable_object wEnv reqEmpty ctxAuth "doc1" 0 =
      some (.response .ExpectedClientAuthHeader) :=
  (C2_forward_auth wEnv reqEmpty ctxAuth "doc1" 0 wAuth).1 rfl rfl

/-- If `resolve_and_forward` hands off to instance `i`, then `i` is exactly
the Actor Directory's image of `doc_id`. -/
theorem resolve_and_forward_forwarded (env : Env) (doc_id i : String)
    (h : resolve_and_forward env doc_id = .forwarded i) :
    env.id_from_name doc_id = .ok i := by
  unfold resolve_and_forward at h
  repeat' split at h
  all_goals simp_all

/-- Claim C9: any two forwarded requests carrying the same `doc_id` resolve
to the same backing instance — the instance id is the Actor Directory's
deterministic `id_from_name` image of `doc_id`, whatever the requests,
contexts and timestamps are. -/
theorem C9_deterministic_routing (env : Env) (req1 req2 : Request)
    (ctx1 ctx2 : ServerContext) (doc_id : String) (now1 now2 : Nat)
    (i1 i2 : String)
    (h1 : forward_to_durable_object env req1 ctx1 doc_id now1 = some (.forwarded i1))
    (h2 : forward_to_durable_object env req2 ctx2 doc_id now2 = some (.forwarded i2)) :
    i1 = i2 ∧ env.id_from_name doc_id = .ok i1 := by
  have key : ∀ (req : Request) (ctx : ServerContext) (now : Nat) (i : String),
      forward_to_durable_object env req ctx doc_id now = some (.forwarded i) →
      env.id_from_name doc_id = .ok i := by
    intro req ctx now i h
    unfold forward_to_durable_object at h
    have hr : resolve_and_forward env doc_id = .forwarded i := by
      repeat' split at h
      all_goals simp_all
    exact resolve_and_forward_forwarded env doc_id i hr
  have k1 := key req1 ctx1 now1 i1 h1
  have k2 := key req2 ctx2 now2 i2 h2
  rw [k1] at k2
  exact ⟨Except.ok.inj k2, k1⟩

/-- Witness for C9 at concrete inputs: one request authenticated with a valid
document token, the other with authentication disabled, both for `"doc1"`,
land on the same instance. -/
theorem C9_deterministic_routing_witness :
    "id-doc1" = "id-doc1" ∧ wEnv.id_from_name "doc1" = .ok "id-doc1" :=
  C9_deterministic_routing wEnv
    ⟨fun _ => none, fun q => if q = "token" then some "dt-doc1" else none, none⟩
    reqEmpty ctxAuth ctxNoAuth "doc1" 0 5 "id-doc1" "id-doc1" rfl rfl

/-- Claim C10: in `auth_doc`, an erroring existence probe (as opposed to a
probe that succeeds with `false`) yields `UpstreamConnectionError`, not
`NoSuchDocument`, and no descriptor (hence no token and no URL) is produced. -/
theorem C10_probe_error (req : Request) (ctx : ServerContext) (doc_id : String)
    (now : Nat) (auth : Option Authenticator) (se : StoreError)
    (hauth : ctx.auth = .ok auth)
    (hguard : check_server_token req auth now = .ok ())
    (hex : ctx.store.exists_ (doc_id ++ "/data.ysweet") = .error se) :
    auth_doc req ctx doc_id now = .error .UpstreamConnectionError
    ∧ ∀ ct : ClientToken, auth_doc req ctx doc_id now ≠ .ok ct := by
  have h : auth_doc req ctx doc_id now = .error .UpstreamConnectionError := by
    simp [auth_doc, hauth, hguard, hex]
  exact ⟨h, fun ct hct => by rw [h] at hct; exact Except.noConfusion hct⟩

/-- Witness for C10 at a concrete input: authentication disabled, store whose
existence probe errors with a connection failure. -/
theorem C10_probe_error_witness :
    auth_doc reqEmpty ⟨⟨none⟩, .ok none, ⟨.ok (), fun _ => .error (.ConnectionError "down")⟩⟩
        "doc1" 0 = .error .UpstreamConnectionError :=
  (C10_probe_error reqEmpty ⟨⟨none⟩, .ok none, ⟨.ok (), fun _ => .error (.ConnectionError "down")⟩⟩
    "doc1" 0 none (.ConnectionError "down") rfl rfl rfl).1

/-- Any successful `auth_doc` descriptor names `doc_id` and carries exactly
the token the configured authority (if any) mints for `doc_id` at the
current time, in every URL-resolution branch. -/
theorem auth_doc_ok_shape (req : Request) (ctx : ServerContext) (doc_id : String)
    (now : Nat) (auth : Option Authenticator) (ct : ClientToken)
    (hauth : ctx.auth = .ok auth)
    (hct : auth_doc req ctx doc_id now = .ok ct) :
    ct.doc = doc_id ∧ ct.token = auth.map fun a => a.gen_doc_token doc_id now := by
  rcases hguard : check_server_token req auth now with e | u
  · simp [auth_doc, hauth, hguard] at hct
  · rcases hex : ctx.store.exists_ (doc_id ++ "/data.ysweet") with se | b
    · simp [auth_doc, hauth, hguard, hex] at hct
    · cases b with
      | false => simp [auth_doc, hauth, hguard, hex] at hct
      | true =>
        rcases hp : ctx.config.urlPrefix with _ | p
        · rcases hh : req.headers "Host" with _ | host
          · simp [auth_doc, hauth, hguard, hex, hp, hh] at hct
          · simp [auth_doc, hauth, hguard, hex, hp, hh] at hct
            subst hct
            exact ⟨rfl, rfl⟩
        · rcases hu : Url.parse p with _ | u
          · simp [auth_doc, hauth, hguard, hex, hp, hu] at hct
          · simp [auth_doc, hauth, hguard, hex, hp, hu] at hct
            split at hct
            · simp at hct; subst hct; exact ⟨rfl, rfl⟩
            · simp at hct; subst hct; exact ⟨rfl, rfl⟩
            · simp at hct

/-- Claim C3: in `auth_doc`, a document absent from the store (probe answers
`false` on the canonical key) fails with `NoSuchDocument`; a successful
descriptor carries the token `gen_doc_token doc_id now` exactly when
authentication is enabled, and no token when it is disabled. -/
theorem C3_auth_doc_token (req : Request) (ctx : ServerContext) (doc_id : String)
    (now : Nat) (a : Authenticator) :
    (∀ auth, ctx.auth = .ok auth → check_server_token req auth now = .ok () →
      ctx.store.exists_ (doc_id ++ "/data.ysweet") = .ok false →
      auth_doc req ctx doc_id now = .error .NoSuchDocument)
    ∧ (ctx.auth = .ok (some a) → ∀ ct, auth_doc req ctx doc_id now = .ok ct →
        ct.token = some (a.gen_doc_token doc_id now) ∧ ct.doc = doc_id)
    ∧ (ctx.auth = .ok none → ∀ ct, auth_doc req ctx doc_id now = .ok ct →
        ct.token = none) := by
  refine ⟨?_, ?_, ?_⟩
  · intro auth hauth hguard hex
    simp [auth_doc, hauth, hguard, hex]
  · intro hauth ct hct
    obtain ⟨hdoc, htok⟩ := auth_doc_ok_shape req ctx doc_id now (some a) ct hauth hct
    exact ⟨by simpa using htok, hdoc⟩
  · intro hauth ct hct
    obtain ⟨_, htok⟩ := auth_doc_ok_shape req ctx doc_id now none ct hauth hct
    simpa using htok

/-- Witness for C3 at a concrete input: authentication disabled, store that
answers `false` on every key, so token issuance fails with `NoSuchDocument`. -/
theorem C3_auth_doc_token_witness :
    auth_doc reqEmpty ⟨⟨none⟩, .ok none, ⟨.ok (), fun _ => .ok false⟩⟩ "doc1" 0 =
      .error .NoSuchDocument :=
  (C3_auth_doc_token reqEmpty ⟨⟨none⟩, .ok none, ⟨.ok (), fun _ => .ok false⟩⟩
    "doc1" 0 wAuth).1 none rfl rfl rfl

/-- Claim C4: in `new_doc`, an unparseable body yields `BadRequest`; the
supplied-or-generated id is validated (also when server-generated), failing
with `InvalidDocName`; consequently the id of every successful response
passes the validator. -/
theorem C4_new_doc_validation (req : Request) (ctx : ServerContext)
    (V : String → Bool) (genId : String)
    (docNew persist : String → Except StoreError Unit) (now : Nat) :
    (∀ auth, ctx.auth = .ok auth → check_server_token req auth now = .ok () →
      req.body = none →
      new_doc req ctx V genId docNew persist now = some (.error .BadRequest))
    ∧ (∀ auth body, ctx.auth = .ok auth → check_server_token req auth now = .ok () →
        req.body = some body → V (body.doc.getD genId) = false →
        new_doc req ctx V genId docNew persist now = some (.error .InvalidDocName))
    ∧ (∀ resp, new_doc req ctx V genId docNew persist now = some (.ok resp) →
        V resp.doc = true) := by
  refine ⟨?_, ?_, ?_⟩
  · intro auth hauth hguard hbody
    simp [new_doc, hauth, hguard, hbody]
  · intro auth body hauth hguard hbody hval
    simp [new_doc, hauth, hguard, hbody, hval]
  · intro resp h
    rcases hauth : ctx.auth with e | auth
    · simp [new_doc, hauth] at h
    · rcases hguard : check_server_token req auth now with e | u
      · simp [new_doc, hauth, hguard] at h
      · rcases hbody : req.body with _ | body
        · simp [new_doc, hauth, hguard, hbody] at h
        · cases hV : V (body.doc.getD genId) with
          | false => simp [new_doc, hauth, hguard, hbody, hV] at h
          | true =>
            rcases hdn : docNew (body.doc.getD genId) with se | v
            · simp [new_doc, hauth, hguard, hbody, hV, hdn] at h
            · rcases hps : persist (body.doc.getD genId) with se | w
              · simp [new_doc, hauth, hguard, hbody, hV, hdn, hps] at h
              · simp [new_doc, hauth, hguard, hbody, hV, hdn, hps] at h
                subst h
                exact hV

/-- Witness for C4 at a concrete input: unparseable body, `BadRequest`. -/
theorem C4_new_doc_validation_witness :
    new_doc reqEmpty ctxNoAuth (fun _ => true) "gid"
      (fun _ => .ok ()) (fun _ => .ok ()) 0 = some (.error .BadRequest) :=
  (C4_new_doc_validation reqEmpty ctxNoAuth (fun _ => true) "gid"
    (fun _ => .ok ()) (fun _ => .ok ()) 0).1 none rfl rfl rfl

/-- Claim C5: with a URL prefix configured, the issued connection URL is the
parsed prefix with scheme `http` rewritten to `ws` and `https` to `wss`,
followed by the fixed `/doc/ws` suffix; an unparseable prefix or any other
scheme yields the configuration error for the `url_prefix` field. -/
theorem C5_url_prefix_rewrite (req : Request) (ctx : ServerContext)
    (doc_id : String) (now : Nat) (auth : Option Authenticator) (p : String)
    (hauth : ctx.auth = .ok auth)
    (hguard : check_server_token req auth now = .ok ())
    (hex : ctx.store.exists_ (doc_id ++ "/data.ysweet") = .ok true)
    (hp : ctx.config.urlPrefix = some p) :
    (Url.parse p = none →
      auth_doc req ctx doc_id now = .error (.ConfigurationError "url_prefix" p))
    ∧ (∀ u, Url.parse p = some u → u.scheme ≠ "http" → u.scheme ≠ "https" →
        auth_doc req ctx doc_id now = .error (.ConfigurationError "url_prefix" p))
    ∧ (∀ u, Url.parse p = some u → u.scheme = "http" →
        auth_doc req ctx doc_id now =
          .ok ⟨Url.toString ⟨"ws", u.rest⟩ ++ "/doc/ws", doc_id,
               auth.map fun a => a.gen_doc_token doc_id now⟩)
    ∧ (∀ u, Url.parse p = some u → u.scheme = "https" →
        auth_doc req ctx doc_id now =
          .ok ⟨Url.toString ⟨"wss", u.rest⟩ ++ "/doc/ws", doc_id,
               auth.map fun a => a.gen_doc_token doc_id now⟩) := by
  refine ⟨?_, ?_, ?_, ?_⟩
  · intro hparse
    simp [auth_doc, hauth, hguard, hex, hp, hparse]
  · intro u hu h1 h2
    simp only [auth_doc, hauth, hguard, hex, hp, hu]
  · intro u hu hscheme
    simp [auth_doc, hauth, hguard, hex, hp, hu, hscheme]
  · intro u hu hscheme
    simp [auth_doc, hauth, hguard, hex, hp, hu, hscheme]

/-- Witness for C5 at a concrete input: prefix `"http://h"`, scheme rewritten
to `ws`, suffix `/doc/ws` appended. -/
theorem C5_url_prefix_rewrite_witness :
    auth_doc reqEmpty ⟨⟨some "http://h"⟩, .ok none, wStoreOk⟩ "doc1" 0 =
      .ok ⟨Url.toString ⟨"ws", "h"⟩ ++ "/doc/ws", "doc1", none⟩ :=
  (C5_url_prefix_rewrite reqEmpty ⟨⟨some "http://h"⟩, .ok none, wStoreOk⟩
    "doc1" 0 none "http://h" rfl rfl rfl rfl).2.2.1 ⟨"http", "h"⟩ (by decide) rfl

/-- Claim C6: with no URL prefix configured, a missing `Host` header fails
with `MissingHostHeader`; otherwise the issued URL is
`scheme://host/doc/ws` where the scheme is `wss` iff the
`X-Forwarded-Proto` header is exactly `"https"` (any other value, or its
absence, gives `ws`). -/
theorem C6_inferred_url (req : Request) (ctx : ServerContext) (doc_id : String)
    (now : Nat) (auth : Option Authenticator)
    (hauth : ctx.auth = .ok auth)
    (hguard : check_server_token req auth now = .ok ())
    (hex : ctx.store.exists_ (doc_id ++ "/data.ysweet") = .ok true)
    (hp : ctx.config.urlPrefix = none) :
    (req.headers "Host" = none →
      auth_doc req ctx doc_id now = .error .MissingHostHeader)
    ∧ (∀ host, req.headers "Host" = some host →
        auth_doc req ctx doc_id now =
          .ok ⟨(if req.headers "X-Forwarded-Proto" = some "https" then "wss" else "ws")
                ++ "://" ++ host ++ "/doc/ws", doc_id,
               auth.map fun a => a.gen_doc_token doc_id now⟩) := by
  constructor
  · intro hh
    simp [auth_doc, hauth, hguard, hex, hp, hh]
  · intro host hh
    cases hx : req.headers "X-Forwarded-Proto" with
    | none => simp [auth_doc, hauth, hguard, hex, hp, hh, hx]
    | some d =>
      by_cases hd : d = "https"
      · simp [auth_doc, hauth, hguard, hex, hp, hh, hx, hd]
      · simp [auth_doc, hauth, hguard, hex, hp, hh, hx, hd]

/-- Witness for C6 at a concrete input: `Host: h1`, no `X-Forwarded-Proto`,
so the URL is `ws://h1/doc/ws`. -/
theorem C6_inferred_url_witness :
    auth_doc ⟨fun h => if h = "Host" then some "h1" else none, fun _ => none, none⟩
        ctxNoAuth "doc1" 0 =
      .ok ⟨"ws" ++ "://" ++ "h1" ++ "/doc/ws", "doc1", none⟩ := by
  have h := (C6_inferred_url
    ⟨fun h => if h = "Host" then some "h1" else none, fun _ => none, none⟩
    ctxNoAuth "doc1" 0 none rfl rfl rfl rfl).2 "h1" (by decide)
  simpa using h

/-- Claim C7: `check_store` answers `{ok: true}` when the probe succeeds and
otherwise `{ok: false}` with exactly one of the four fixed messages, chosen
by error category; the internal detail string never reaches the caller. -/
theorem C7_check_store_classification (req : Request) (ctx : ServerContext)
    (now : Nat) (auth : Option Authenticator)
    (hauth : ctx.auth = .ok auth)
    (hguard : check_server_token req auth now = .ok ()) :
    (ctx.store.init = .ok () → check_store req ctx now = .ok ⟨true, none⟩)
    ∧ (∀ s, ctx.store.init = .error (.ConnectionError s) →
        check_store req ctx now = .ok ⟨false, some "Connection error."⟩)
    ∧ (∀ s, ctx.store.init = .error (.BucketDoesNotExist s) →
        check_store req ctx now = .ok ⟨false, some "Bucket does not exist."⟩)
    ∧ (∀ s, ctx.store.init = .error (.NotAuthorized s) →
        check_store req ctx now = .ok ⟨false, some "Not authorized."⟩)
    ∧ (∀ s, ctx.store.init = .error (.Other s) →
        check_store req ctx now = .ok ⟨false, some "Unknown error."⟩)
    ∧ (∀ v, check_store req ctx now = .ok v →
        v = ⟨true, none⟩
        ∨ v = ⟨false, some "Connection error."⟩
        ∨ v = ⟨false, some "Bucket does not exist."⟩
        ∨ v = ⟨false, some "Not authorized."⟩
        ∨ v = ⟨false, some "Unknown error."⟩) := by
  refine ⟨?_, ?_, ?_, ?_, ?_, ?_⟩
  · intro hi; simp [check_store, hauth, hguard, hi]
  · intro s hi; simp [check_store, hauth, hguard, hi]
  · intro s hi; simp [check_store, hauth, hguard, hi]
  · intro s hi; simp [check_store, hauth, hguard, hi]
  · intro s hi; simp [check_store, hauth, hguard, hi]
  · intro v hv
    simp only [check_store, hauth, hguard] at hv
    cases hi : ctx.store.init with
    | ok u => simp_all
    | error se => cases se <;> simp_all

/-- Witness for C7 at a concrete input: a store whose probe fails with a
connection error carrying a detail string that does not appear in the
response. -/
theorem C7_check_store_classification_witness :
    check_store reqEmpty
        ⟨⟨none⟩, .ok none, ⟨.error (.ConnectionError "secret detail"), fun _ => .ok true⟩⟩ 0 =
      .ok ⟨false, some "Connection error."⟩ :=
  (C7_check_store_classification reqEmpty
    ⟨⟨none⟩, .ok none, ⟨.error (.ConnectionError "secret detail"), fun _ => .ok true⟩⟩
    0 none rfl rfl).2.1 "secret detail" rfl

/-- Counterexample for claim C8 as stated: at a concrete request whose
document initialization fails, `new_doc` aborts with no response value at
all (the `.unwrap()` on `DocWithSyncKv::new` panics), so the failure is not
returned to the caller as a classified error. -/
theorem C8_counterexample :
    new_doc reqEmptyBody ctxNoAuth (fun _ => true) "gid"
      (fun _ => .error (.ConnectionError "down")) (fun _ => .ok ()) 0 = none := rfl

/-- Claim C8 (amended): any failure of the document initialization or of the
durability flush is fatal to the request — no success response, no partial
response, no retry — but it aborts the request through a panic rather than
being translated into a classified error value returned to the caller. -/
theorem C8_init_failure_fatal (req : Request) (ctx : ServerContext)
    (V : String → Bool) (genId : String)
    (docNew persist : String → Except StoreError Unit) (now : Nat)
    (auth : Option Authenticator) (body : DocCreationRequest)
    (hauth : ctx.auth = .ok auth)
    (hguard : check_server_token req auth now = .ok ())
    (hbody : req.body = some body)
    (hval : V (body.doc.getD genId) = true)
    (hfail : (∃ se, docNew (body.doc.getD genId) = .error se)
        ∨ (docNew (body.doc.getD genId) = .ok () ∧
            ∃ se, persist (body.doc.getD genId) = .error se)) :
    new_doc req ctx V genId docNew persist now = none := by
  rcases hfail with ⟨se, hse⟩ | ⟨hok, se, hse⟩
  · simp [new_doc, hauth, hguard, hbody, hval, hse]
  · simp [new_doc, hauth, hguard, hbody, hval, hok, hse]

/-- Witness for the amended C8 at a concrete input: the durability flush
fails, and the request produces no response value. -/
theorem C8_init_failure_fatal_witness :
    new_doc reqEmptyBody ctxNoAuth (fun _ => true) "gid2"
      (fun _ => .ok ()) (fun _ => .error (.Other "flush failed")) 0 = none :=
  C8_init_failure_fatal reqEmptyBody ctxNoAuth (fun _ => true) "gid2"
    (fun _ => .ok ()) (fun _ => .error (.Other "flush failed")) 0 none ⟨none⟩
    rfl rfl rfl rfl (Or.inr ⟨rfl, .Other "flush failed", rfl⟩)

end YSweet
